import Mathlib

/-!
A shallow embedding of `broker/hosts.py`: the `Host` class with its
settings-validation gate, identity check, lazy `session` property,
`connect`, `close`, `execute`, the `_pkg_mgr` probe and the
`to_dict`/`from_dict` serialization contract. External collaborators
(the settings object, the `broker.session` module, container runtimes)
are modelled as oracles or opaque data, exactly where the source calls
out of this file.
-/

namespace Broker

/-- A container instance linked to a host (`self._cont_inst`): its port
mapping (`.ports`, container port to host port; a port that is unmapped,
or mapped to a falsy value, makes `ports.get(p)` falsy and is modelled by
an absent or zero entry) and the textual rendering of its runtime client
(`str(self._cont_inst.client)`). -/
structure ContInst where
  ports : List (Nat × Nat)
  clientStr : String
deriving DecidableEq

/-- A Python value as it appears among the keyword arguments and instance
attributes of a `Host`: strings, `None`, ints, bools, a linked container
instance (the `_cont_inst` object) or a provider link (the `_prov_inst`
object, carrying its `instance` identifier). -/
inductive PyVal where
  | pstr (s : String)
  | pnone
  | pint (n : Int)
  | pbool (b : Bool)
  | pcont (ci : ContInst)
  | pprov (inst : String)
deriving DecidableEq

/-- Python truthiness, `bool (v)`. -/
def PyVal.truthy : PyVal → Bool
  | .pnone => false
  | .pstr s => s != ""
  | .pint n => n != 0
  | .pbool b => b
  | .pcont _ => true
  | .pprov _ => true

/-- Python `a or b`. -/
def pyOr (a b : PyVal) : PyVal := if a.truthy then a else b

/-- A Python dict with string keys, as an association list. Python dicts
never hold a key twice; lookups read the first occurrence. -/
abbrev Dict := List (String × PyVal)

def dictLookup : Dict → String → Option PyVal
  | [], _ => none
  | (k', v) :: rest, k => if k' = k then some v else dictLookup rest k

/-- Python `d.get(k, default)`. -/
def dictGetD (d : Dict) (k : String) (dflt : PyVal) : PyVal :=
  (dictLookup d k).getD dflt

/-- Python `d.get(k)`; an absent key and a `None` value coincide, as they
do for every `kwargs.get` in `Host.__init__`. -/
def dictGet (d : Dict) (k : String) : PyVal := dictGetD d k .pnone

/-- Remove key `k`: the effect `d.pop(k, ...)` has on the dict. -/
def dictErase : Dict → String → Dict
  | [], _ => []
  | (k', v) :: rest, k =>
    if k' = k then dictErase rest k else (k', v) :: dictErase rest k

/-- Keep only the pairs whose key lies in `keep` (the dict comprehension
over `keep_keys` in `Host.to_dict`). -/
def dictFilterKeys (keep : List String) : Dict → Dict
  | [] => []
  | (k, v) :: rest =>
    if k ∈ keep then (k, v) :: dictFilterKeys keep rest
    else dictFilterKeys keep rest

/-- Insert or overwrite key `k` (Python `d[k] = v` / `setattr`; an
existing key keeps its position). -/
def dictSet : Dict → String → PyVal → Dict
  | [], k, v => [(k, v)]
  | (k', v') :: rest, k, v =>
    if k' = k then (k, v) :: rest else (k', v') :: dictSet rest k v

/-- `pat` is a prefix of `cs`. -/
def charsStartWith : List Char → List Char → Bool
  | [], _ => true
  | _ :: _, [] => false
  | p :: ps, c :: cs => p == c && charsStartWith ps cs

/-- `pat` occurs somewhere in `cs`. -/
def charsHaveSub (pat : List Char) : List Char → Bool
  | [] => charsStartWith pat []
  | c :: cs => charsStartWith pat (c :: cs) || charsHaveSub pat cs

/-- Python `pat in s` on strings: substring containment. -/
def strContains (s pat : String) : Bool := charsHaveSub pat.data s.data

/-- The exceptions the embedded code raises. -/
inductive PyErr where
  | hostError (msg : String)
  | attrError (attr : String)
deriving DecidableEq

deriving instance DecidableEq for Except

/-- `true` iff the computation returned a value rather than raising. -/
def exceptOk {α : Type} : Except PyErr α → Bool
  | .ok _ => true
  | .error _ => false

/-- A session attached to a host: container-backed (a `ContainerSession`
with its runtime name) or SSH-backed (built by `make_session` in the
external `broker.session` module). -/
inductive Session where
  | container (runtime : String)
  | ssh
deriving DecidableEq

/-- The structured result of a session's `run` (external `broker.session`
module), modelled by its captured text. -/
structure RunResult where
  text : String
deriving DecidableEq

/-- The process-wide `settings.SSH` defaults `Host.__init__` consults
(the settings object is an external collaborator). -/
structure SSHSettings where
  HOST_USERNAME : PyVal
  HOST_PASSWORD : PyVal
  HOST_CONNECTION_TIMEOUT : PyVal
  HOST_SSH_PORT : PyVal
  HOST_SSH_KEY_FILENAME : PyVal
  HOST_IPV6 : PyVal
  HOST_IPV4_FALLBACK : PyVal
deriving DecidableEq

/-- Process-wide state: the module-level `SETTINGS_VALIDATED` flag plus a
count of how many times `settings.validators.validate(only="SSH")` has
run. The external validation call is modelled as succeeding. -/
structure ProcState where
  settingsValidated : Bool
  validationCount : Nat
deriving DecidableEq

/-- The state at process start: `SETTINGS_VALIDATED = False`. -/
def procState0 : ProcState := ⟨false, 0⟩

/-- Lines 53-57: run the validators, guarded by `SETTINGS_VALIDATED`. -/
def validateGate (st : ProcState) : ProcState :=
  if st.settingsValidated then st else ⟨true, st.validationCount + 1⟩

/-- The instance attributes of a `Host` as `__init__` leaves them: the
named attributes assigned at lines 59 and 68-75, every remaining keyword
argument attached through `self.__dict__.update(kwargs)` at line 76 (kept
in `ext` in insertion order) and `self._session` from line 77. The
`hostname` and `timeout` fields hold the post-update values: those two
keys are read with `get` rather than popped, so when present in `kwargs`
the `update` call overwrites the earlier assignment. -/
structure Host where
  hostname : PyVal
  name : PyVal
  username : PyVal
  password : PyVal
  timeout : PyVal
  port : PyVal
  key_filename : PyVal
  ipv6 : PyVal
  ipv4_fallback : PyVal
  ext : Dict
  session : Option Session
deriving DecidableEq

instance : Inhabited Host :=
  ⟨{ hostname := .pnone, name := .pnone, username := .pnone,
     password := .pnone, timeout := .pnone, port := .pnone,
     key_filename := .pnone, ipv6 := .pnone, ipv4_fallback := .pnone,
     ext := [], session := none }⟩

/-- The message of the identity error raised at line 67. -/
def hostErrMsg : String := "Host must be constructed with a hostname or ip"

/-- The attribute assignments of `__init__` (lines 59, 68-77) once the
identity check has passed: pops with settings defaults, then
`self.__dict__.update(kwargs)` — the unpopped `hostname` and `timeout`
keys overwrite the attributes set earlier; the rest of `kwargs` becomes
the open attribute mapping `ext`; `_session` starts as `None`. -/
def Host.initHost (s : SSHSettings) (kw : Dict) : Host :=
  let hostname0 := pyOr (dictGet kw "hostname") (dictGet kw "ip")
  let name := dictGet kw "name"
  let kw := dictErase kw "name"
  let username := dictGetD kw "username" s.HOST_USERNAME
  let kw := dictErase kw "username"
  let password := dictGetD kw "password" s.HOST_PASSWORD
  let kw := dictErase kw "password"
  let timeout0 := dictGetD kw "connection_timeout" s.HOST_CONNECTION_TIMEOUT
  let kw := dictErase kw "connection_timeout"
  let port := dictGetD kw "port" s.HOST_SSH_PORT
  let kw := dictErase kw "port"
  let key_filename := dictGetD kw "key_filename" s.HOST_SSH_KEY_FILENAME
  let kw := dictErase kw "key_filename"
  let ipv6 := dictGetD kw "ipv6" s.HOST_IPV6
  let kw := dictErase kw "ipv6"
  let ipv4_fallback := dictGetD kw "ipv4_fallback" s.HOST_IPV4_FALLBACK
  let kw := dictErase kw "ipv4_fallback"
  let hostname := match dictLookup kw "hostname" with
    | some v => v
    | none => hostname0
  let timeout := match dictLookup kw "timeout" with
    | some v => v
    | none => timeout0
  let ext := dictErase (dictErase kw "hostname") "timeout"
  { hostname, name, username, password, timeout, port, key_filename,
    ipv6, ipv4_fallback, ext, session := none }

/-- `Host.__init__` (lines 39-77). `kw` is the keyword-argument dict;
`stackHasReconstructHost` is whether a frame named `reconstruct_host` is
on the call stack (the `inspect.stack()` scan at line 64). Returns the
process state after the validation gate together with the constructed
host or the raised `HostError`. -/
def Host.init (st : ProcState) (s : SSHSettings) (kw : Dict)
    (stackHasReconstructHost : Bool) : ProcState × Except PyErr Host :=
  let st := validateGate st
  let hostname0 := pyOr (dictGet kw "hostname") (dictGet kw "ip")
  if !hostname0.truthy && !stackHasReconstructHost then
    (st, .error (.hostError hostErrMsg))
  else
    (st, .ok (Host.initHost s kw))

/-- `Host.from_dict` (lines 219-222): `cls(**arg_dict, from_dict=True)`.
The extra keyword lands after the record's own keys. (A record that
already held a `from_dict` key would be a Python `TypeError`; no record
produced by `to_dict` does.) `from_dict` itself is not named
`reconstruct_host`, so the stack flag is whatever the caller's stack
holds. -/
def Host.from_dict (st : ProcState) (s : SSHSettings) (record : Dict)
    (stackHasReconstructHost : Bool) : ProcState × Except PyErr Host :=
  Host.init st s (record ++ [("from_dict", .pbool true)]) stackHasReconstructHost

/-- `setattr(self, key, val)` for one `connect` override: a known
attribute name hits its slot, anything else lands in the open mapping.
(Keys colliding with the `session` property or `_session` are not
modelled; `connect` is never called with them.) -/
def Host.setAttr (h : Host) (k : String) (v : PyVal) : Host :=
  if k = "hostname" then { h with hostname := v }
  else if k = "name" then { h with name := v }
  else if k = "username" then { h with username := v }
  else if k = "password" then { h with password := v }
  else if k = "timeout" then { h with timeout := v }
  else if k = "port" then { h with port := v }
  else if k = "key_filename" then { h with key_filename := v }
  else if k = "ipv6" then { h with ipv6 := v }
  else if k = "ipv4_fallback" then { h with ipv4_fallback := v }
  else { h with ext := dictSet h.ext k v }

/-- The `for key, val in kwargs.items(): setattr(self, key, val)` loop at
lines 105-106. -/
def Host.applyKwargs (h : Host) : Dict → Host
  | [] => h
  | (k, v) :: rest => (h.setAttr k v).applyKwargs rest

/-- `Host.connect` (lines 103-143). Every path of the method raises: the
container branch evaluates `self._settings` (an attribute nothing ever
assigns) and then runs `self.session = ContainerSession(...)`, but the
`session` property at line 85 defines no setter, so the assignment itself
raises `AttributeError`; the SSH branch likewise reads `self._settings`
and `self.DEFAULT_USER` (the class defines neither) while building the
`make_session` arguments and ends at the same setter-less assignment.
The host is returned as mutated so far — the keyword overrides of lines
105-106 stick — and `_session` is never touched. -/
def Host.connect (h : Host) (kw : Dict) : Host × PyErr :=
  let h := h.applyKwargs kw
  if (dictGet h.ext "is_container").truthy || (dictGet h.ext "_cont_inst").truthy then
    if (dictLookup h.ext "_settings").isNone then (h, .attrError "_settings")
    else (h, .attrError "session")
  else
    if (dictLookup h.ext "_settings").isNone then (h, .attrError "_settings")
    else if (dictLookup h.ext "DEFAULT_USER").isNone then (h, .attrError "DEFAULT_USER")
    else (h, .attrError "session")

/-- Line 97: `"podman" if "podman" in str(self._cont_inst.client) else
"docker"`. -/
def ciRuntime (ci : ContInst) : String :=
  if strContains ci.clientStr "podman" then "podman" else "docker"

/-- Truthiness of `self._cont_inst.ports.get(22)`. -/
def ContInst.sshPortTruthy (ci : ContInst) : Bool :=
  match dictNatLookup ci.ports 22 with
  | none => false
  | some n => n != 0
where
  dictNatLookup : List (Nat × Nat) → Nat → Option Nat
    | [], _ => none
    | (p, hp) :: rest, q => if p = q then some hp else dictNatLookup rest q

/-- The lazy `session` property (lines 85-101). A cached session is
returned as is; a host whose `_cont_inst` has no truthy SSH port gets a
`ContainerSession` written to `_session`; every other host falls through
to `connect()`, whose exception propagates out of the property. A
`_cont_inst` attribute that is not a container instance faults reading
`.ports`. -/
def Host.sessionGet (h : Host) : Host × Except PyErr Session :=
  match h.session with
  | some s => (h, .ok s)
  | none =>
    match dictLookup h.ext "_cont_inst" with
    | some (.pcont ci) =>
      if !ci.sshPortTruthy then
        let s := Session.container (ciRuntime ci)
        ({ h with session := some s }, .ok s)
      else
        let r := h.connect []
        (r.1, .error r.2)
    | some _ => (h, .error (.attrError "ports"))
    | none =>
      let r := h.connect []
      (r.1, .error r.2)

/-- Which transport a code path picks. -/
inductive Backend where
  | container
  | ssh
deriving DecidableEq

/-- The branch `connect` takes at line 107: container-backed when
`is_container` or `_cont_inst` is truthy, SSH-backed otherwise. -/
def Host.connectBackend (h : Host) : Backend :=
  if (dictGet h.ext "is_container").truthy || (dictGet h.ext "_cont_inst").truthy then
    .container
  else .ssh

/-- The backend the lazy accessor selects for a host with no session: the
container fast path of line 94, else whatever branch `connect` takes;
`none` when the accessor itself faults reading `.ports`. -/
def Host.lazyBackend (h : Host) : Option Backend :=
  match dictLookup h.ext "_cont_inst" with
  | some (.pcont ci) =>
    if !ci.sshPortTruthy then some .container else some h.connectBackend
  | some _ => none
  | none => some h.connectBackend

/-- `Host.close` (lines 145-149): the host afterwards, and how many times
`self._session.disconnect()` was invoked. -/
def Host.close (h : Host) : Host × Nat :=
  match h.session with
  | some _ => ({ h with session := none }, 1)
  | none => ({ h with session := none }, 0)

/-- `self.default_timeout`: the instance attribute when one was attached,
else the class attribute `default_timeout = 0` of line 37. -/
def Host.defaultTimeoutVal (h : Host) : PyVal :=
  dictGetD h.ext "default_timeout" (.pint 0)

/-- `Host.execute` (lines 162-176). `runSem` is the external session's
`run` behaviour; `none` for `timeout` is Python's `timeout=None`. -/
def Host.execute (runSem : Session → String → PyVal → RunResult) (h : Host)
    (command : String) (timeout : Option PyVal) : Host × Except PyErr RunResult :=
  let t := match timeout with
    | none => h.defaultTimeoutVal
    | some v => v
  match h.sessionGet with
  | (h', .ok s) => (h', .ok (runSem s command t))
  | (h', .error e) => (h', .error e)

/-- `Host._pkg_mgr` (lines 156-160). `execOut cmd` is the text of
`self.execute(cmd)`'s result, as the `in` containment test reads it. -/
def pkgMgrProbe (execOut : String → String) : Option String :=
  List.find?
    (fun mgr => strContains (execOut ("which " ++ mgr)) ("no " ++ mgr ++ " in"))
    ["yum", "dnf", "zypper"]

/-- The `keep_keys` tuple of lines 180-193. -/
def keepKeys : List String :=
  ["hostname", "_broker_provider", "_broker_args", "tower_inventory",
   "deploy_network_type", "job_id", "_attrs", "ip", "os_distribution",
   "os_distribution_version", "reported_devices", "exposed_ports"]

/-- `self.__dict__` in insertion order: the named attributes, then the
open mapping. `_session` is omitted: it is not a `PyVal`, and the only
consumer of this dict filters on `keep_keys`, which excludes it. -/
def Host.instanceDict (h : Host) : Dict :=
  ("hostname", h.hostname) :: ("name", h.name) :: ("username", h.username) ::
  ("password", h.password) :: ("timeout", h.timeout) :: ("port", h.port) ::
  ("key_filename", h.key_filename) :: ("ipv6", h.ipv6) ::
  ("ipv4_fallback", h.ipv4_fallback) :: h.ext

/-- `Host.to_dict` (lines 178-200): reads `self._prov_inst.instance`
unconditionally — an absent `_prov_inst` attribute, or one that is not a
provider link with an `instance` field, raises `AttributeError` — then
adds the `__dict__` attributes whose keys lie in `keep_keys`. -/
def Host.to_dict (h : Host) : Except PyErr Dict :=
  match dictLookup h.ext "_prov_inst" with
  | none => .error (.attrError "_prov_inst")
  | some (.pprov inst) =>
    .ok (("name", h.name) :: ("_broker_provider_instance", .pstr inst) ::
         ("type", .pstr "host") :: dictFilterKeys keepKeys h.instanceDict)
  | some _ => .error (.attrError "instance")

/-- The documented allow-list of serialized keys (spec sections 3, 4.1). -/
def allowList : List String :=
  "name" :: "_broker_provider_instance" :: "type" :: keepKeys

/-- A sequence of `Host` constructions in one process, threading the
module-level state through each `__init__`. -/
def constructMany (s : SSHSettings) : ProcState → List (Dict × Bool) → ProcState
  | st, [] => st
  | st, (kw, flag) :: rest => constructMany s (Host.init st s kw flag).1 rest

/-- Concrete settings for the concrete evaluations below. -/
def demoSettings : SSHSettings :=
  { HOST_USERNAME := .pstr "root", HOST_PASSWORD := .pstr "toor",
    HOST_CONNECTION_TIMEOUT := .pint 60, HOST_SSH_PORT := .pint 22,
    HOST_SSH_KEY_FILENAME := .pnone, HOST_IPV6 := .pbool false,
    HOST_IPV4_FALLBACK := .pbool true }

/-- `Host(hostname="example.com")` built at process start. -/
def hostA : Host :=
  match (Host.init procState0 demoSettings
      [("hostname", .pstr "example.com")] false).2 with
  | .ok h => h
  | .error _ => default

/-- `hostA` after a container session was attached to `_session`. -/
def hostB : Host := { hostA with session := some (.container "podman") }

/-- A host linked to a container instance whose SSH port 22 is mapped. -/
def hostC : Host :=
  match (Host.init procState0 demoSettings
      [("hostname", .pstr "cont-2"),
       ("_cont_inst", .pcont ⟨[(22, 2222)], "docker client object"⟩)] false).2 with
  | .ok h => h
  | .error _ => default

/-- A host linked to a container instance with no mapped SSH port. -/
def hostD : Host :=
  match (Host.init procState0 demoSettings
      [("hostname", .pstr "cont-1"),
       ("_cont_inst", .pcont ⟨[(80, 8080)], "podman client object"⟩)] false).2 with
  | .ok h => h
  | .error _ => default

/-- A host holding a provider link (`_prov_inst`) and an `ip` attribute. -/
def hostP : Host :=
  match (Host.init procState0 demoSettings
      [("hostname", .pstr "prov-1"), ("_prov_inst", .pprov "my-instance"),
       ("_broker_provider", .pstr "AnsibleTower"),
       ("ip", .pstr "10.0.0.5")] false).2 with
  | .ok h => h
  | .error _ => default

/-- The serialized record of `hostP`. -/
def dP : Dict :=
  match hostP.to_dict with
  | .ok d => d
  | .error _ => []

/-- A provider-linked host with no usable identity, as the checkin
reconstruction path (a `reconstruct_host` frame on the stack) creates
it. -/
def hostN : Host :=
  match (Host.init procState0 demoSettings
      [("_prov_inst", .pprov "orphan-instance")] true).2 with
  | .ok h => h
  | .error _ => default

/-- The serialized record of `hostN`. -/
def dN : Dict :=
  match hostN.to_dict with
  | .ok d => d
  | .error _ => []

/-- `which` outputs on a host where `yum` is installed and `dnf` and
`zypper` are not. -/
def whichOut : String → String :=
  fun cmd =>
    if cmd = "which yum" then "/usr/bin/yum"
    else if cmd = "which dnf" then
      "which: no dnf in (/usr/local/bin /usr/bin /bin)"
    else if cmd = "which zypper" then
      "which: no zypper in (/usr/local/bin /usr/bin /bin)"
    else ""

/-- A concrete `run` behaviour: echo the command back. -/
def runSem0 : Session → String → PyVal → RunResult := fun _ cmd _ => ⟨cmd⟩

/-! Association-list plumbing: how lookups move through append, erase and
the `keep_keys` filter. -/

theorem dictLookup_append_some {l : Dict} {k : String} {v : PyVal}
    (hl : dictLookup l k = some v) (l' : Dict) :
    dictLookup (l ++ l') k = some v := by
  induction l with
  | nil => simp [dictLookup] at hl
  | cons kv rest ih =>
    obtain ⟨k', w⟩ := kv
    rw [dictLookup] at hl
    rw [List.cons_append, dictLookup]
    by_cases hk : k' = k
    · simpa [hk] using hl
    · rw [if_neg hk] at hl ⊢
      exact ih hl

theorem dictLookup_append_none {l : Dict} {k : String}
    (hl : dictLookup l k = none) (l' : Dict) :
    dictLookup (l ++ l') k = dictLookup l' k := by
  induction l with
  | nil => simp [dictLookup]
  | cons kv rest ih =>
    obtain ⟨k', w⟩ := kv
    rw [dictLookup] at hl
    rw [List.cons_append, dictLookup]
    by_cases hk : k' = k
    · simp [hk] at hl
    · rw [if_neg hk] at hl ⊢
      exact ih hl

theorem dictLookup_erase (l : Dict) (k k' : String) :
    dictLookup (dictErase l k') k = if k = k' then none else dictLookup l k := by
  induction l with
  | nil => simp [dictLookup, dictErase]
  | cons kv rest ih =>
    obtain ⟨k'', w⟩ := kv
    rw [dictErase]
    by_cases he : k'' = k'
    · rw [if_pos he, ih, dictLookup]
      by_cases hk : k = k'
      · simp [hk]
      · rw [if_neg hk, if_neg hk, if_neg]
        intro hc
        exact hk (hc ▸ he)
    · rw [if_neg he, dictLookup, dictLookup]
      by_cases hk : k'' = k
      · rw [if_pos hk, if_pos hk, if_neg]
        intro hc
        exact he (hk.trans hc)
      · rw [if_neg hk, if_neg hk, ih]

theorem dictLookup_filterKeys (keep : List String) (l : Dict) (k : String) :
    dictLookup (dictFilterKeys keep l) k
      = if k ∈ keep then dictLookup l k else none := by
  induction l with
  | nil => simp [dictLookup, dictFilterKeys]
  | cons kv rest ih =>
    obtain ⟨k', w⟩ := kv
    rw [dictFilterKeys]
    by_cases hm : k' ∈ keep
    · rw [if_pos hm, dictLookup, dictLookup]
      by_cases hk : k' = k
      · subst hk
        simp [hm]
      · rw [if_neg hk, if_neg hk, ih]
    · rw [if_neg hm, ih, dictLookup]
      by_cases hk : k' = k
      · subst hk
        simp [hm]
      · rw [if_neg hk]

theorem mem_dictFilterKeys {keep : List String} {l : Dict} {k : String}
    {v : PyVal} (hm : (k, v) ∈ dictFilterKeys keep l) : k ∈ keep := by
  induction l with
  | nil => simp [dictFilterKeys] at hm
  | cons kv rest ih =>
    obtain ⟨k', w⟩ := kv
    rw [dictFilterKeys] at hm
    by_cases hk : k' ∈ keep
    · rw [if_pos hk] at hm
      rcases List.mem_cons.mp hm with he | ht
      · obtain ⟨rfl, -⟩ := Prod.mk.injEq .. ▸ he
        exact hk
      · exact ih ht
    · rw [if_neg hk] at hm
      exact ih hm

theorem dictGet_append_single (record : Dict) (k k' : String) (v : PyVal)
    (hk : k ≠ k') :
    dictGet (record ++ [(k', v)]) k = dictGet record k := by
  unfold dictGet dictGetD
  cases hl : dictLookup record k with
  | some w => rw [dictLookup_append_some hl]
  | none =>
    rw [dictLookup_append_none hl, dictLookup, if_neg (Ne.symm hk), dictLookup]

/-! The validation gate and `__init__` plumbing. -/

theorem init_fst (st : ProcState) (s : SSHSettings) (kw : Dict) (flag : Bool) :
    (Host.init st s kw flag).1 = validateGate st := by
  rw [Host.init]
  split <;> rfl

theorem validateGate_validated {st : ProcState}
    (hv : st.settingsValidated = true) : validateGate st = st := by
  rw [validateGate, if_pos hv]

theorem constructMany_validated (s : SSHSettings) (st : ProcState)
    (reqs : List (Dict × Bool)) (hv : st.settingsValidated = true) :
    constructMany s st reqs = st := by
  induction reqs generalizing st with
  | nil => rfl
  | cons r rest ih =>
    obtain ⟨kw, flag⟩ := r
    rw [constructMany, init_fst, validateGate_validated hv]
    exact ih st hv

theorem init_snd_ok (st : ProcState) (s : SSHSettings) (kw : Dict) (flag : Bool)
    (ht : (pyOr (dictGet kw "hostname") (dictGet kw "ip")).truthy = true) :
    (Host.init st s kw flag).2 = .ok (Host.initHost s kw) := by
  rw [Host.init]
  simp [ht]

theorem init_snd_flag (st : ProcState) (s : SSHSettings) (kw : Dict) :
    (Host.init st s kw true).2 = .ok (Host.initHost s kw) := by
  rw [Host.init]
  simp

theorem init_snd (st : ProcState) (s : SSHSettings) (kw : Dict) (flag : Bool) :
    (Host.init st s kw flag).2
      = if (!(pyOr (dictGet kw "hostname") (dictGet kw "ip")).truthy && !flag)
            = true
        then .error (.hostError hostErrMsg)
        else .ok (Host.initHost s kw) := by
  rw [Host.init]
  split <;> simp_all

theorem init_snd_err (st : ProcState) (s : SSHSettings) (kw : Dict)
    (ht : (pyOr (dictGet kw "hostname") (dictGet kw "ip")).truthy = false) :
    (Host.init st s kw false).2 = .error (.hostError hostErrMsg) := by
  rw [Host.init]
  simp [ht]

theorem initHost_name (s : SSHSettings) (kw : Dict) :
    (Host.initHost s kw).name = dictGet kw "name" := by
  rw [Host.initHost]

theorem initHost_hostname (s : SSHSettings) (kw : Dict) :
    (Host.initHost s kw).hostname
      = match dictLookup kw "hostname" with
        | some v => v
        | none => pyOr (dictGet kw "hostname") (dictGet kw "ip") := by
  rw [Host.initHost]
  simp only [dictLookup_erase]
  simp

theorem initHost_ext_lookup (s : SSHSettings) (kw : Dict) (k : String)
    (hk : k ∉ ["name", "username", "password", "connection_timeout", "port",
               "key_filename", "ipv6", "ipv4_fallback", "hostname", "timeout"]) :
    dictLookup (Host.initHost s kw).ext k = dictLookup kw k := by
  simp only [List.mem_cons, List.not_mem_nil, or_false, not_or] at hk
  obtain ⟨h1, h2, h3, h4, h5, h6, h7, h8, h9, h10⟩ := hk
  rw [Host.initHost]
  simp only [dictLookup_erase, if_neg h1, if_neg h2, if_neg h3, if_neg h4,
    if_neg h5, if_neg h6, if_neg h7, if_neg h8, if_neg h9, if_neg h10]

/-- `keep_keys` retains the `hostname` attribute and drops the other
eight named attributes, so the `__dict__` projection is the hostname
entry followed by the filtered open mapping. -/
theorem dictFilterKeys_instanceDict (h : Host) :
    dictFilterKeys keepKeys h.instanceDict
      = ("hostname", h.hostname) :: dictFilterKeys keepKeys h.ext := by
  rw [Host.instanceDict]
  simp [dictFilterKeys, keepKeys]

/-- C1: the spec's invariant — `session` is `None` after construction and
non-`None` after the first `execute` or `connect()` — is broken by the
code on every non-container host. `Host(hostname="example.com")` starts
with `_session = None` as claimed, but `connect()` raises
`AttributeError` (it reads `self._settings`, which nothing assigns, and
would in any case end at `self.session = ...`, an assignment to a property
that defines no setter), leaving `_session` `None`; the lazy accessor and
hence the first `execute` fail the same way. -/
theorem connect_never_attaches_session :
    hostA.session = none
  ∧ (hostA.connect []).2 = PyErr.attrError "_settings"
  ∧ (hostA.connect []).1.session = none
  ∧ exceptOk hostA.sessionGet.2 = false
  ∧ hostA.sessionGet.1.session = none
  ∧ exceptOk (Host.execute runSem0 hostA "echo ok" none).2 = false
  ∧ (Host.execute runSem0 hostA "echo ok" none).1.session = none := by
  decide

/-- C2 (amended): construction raises the identity `HostError` exactly
when the Python-truthy combination `kwargs.get("hostname") or
kwargs.get("ip")` is falsy and no `reconstruct_host` frame is on the
stack; a hostname or ip supplied with a truthy (non-empty) value never
raises it. (Supplying only empty-string values still raises: see the
counterexample.) -/
theorem hostname_or_ip_required (st : ProcState) (s : SSHSettings)
    (kw : Dict) (flag : Bool) :
    ((pyOr (dictGet kw "hostname") (dictGet kw "ip")).truthy = false →
      flag = false →
      (Host.init st s kw flag).2 = .error (.hostError hostErrMsg))
  ∧ ((pyOr (dictGet kw "hostname") (dictGet kw "ip")).truthy = true →
      exceptOk (Host.init st s kw flag).2 = true) := by
  constructor
  · intro h1 h2
    subst h2
    exact init_snd_err st s kw h1
  · intro h1
    rw [init_snd_ok st s kw flag h1]
    rfl

/-- C2 witness: a truthy hostname makes construction succeed. -/
theorem hostname_or_ip_required_demo :
    exceptOk (Host.init procState0 demoSettings
      [("hostname", PyVal.pstr "example.com")] false).2 = true :=
  (hostname_or_ip_required procState0 demoSettings
    [("hostname", PyVal.pstr "example.com")] false).2 (by decide)

/-- C2 counterexample: `Host(hostname="")` supplies a hostname value, yet
construction still raises the identity `HostError`, because the check is
on Python truthiness, not on presence. -/
theorem empty_hostname_still_raises :
    (Host.init procState0 demoSettings [("hostname", PyVal.pstr "")] false).2
      = .error (.hostError hostErrMsg) := by
  decide

/-- C4: the probe's containment test is inverted. On a host where `yum`
is installed (its `which` output is a path) and `dnf` is absent (its
`which` output contains "no dnf in"), the probe returns "dnf" — the first
candidate whose lookup FAILED — rather than "yum", the first whose lookup
succeeded, because line 158 returns `mgr` when `"no {mgr} in"` occurs in
the output. -/
theorem pkg_probe_inverted :
    pkgMgrProbe whichOut = some "dnf"
  ∧ strContains (whichOut "which yum") "no yum in" = false
  ∧ strContains (whichOut "which dnf") "no dnf in" = true := by
  decide

/-- C6: `close()` on a host with a session calls `disconnect` exactly
once and clears `_session`; with no session it calls `disconnect` zero
times and changes nothing; a second `close()` after any `close()` is a
no-op. No path of `close` raises (the model is total). -/
theorem close_idempotent (h : Host) :
    (h.session.isSome = true → h.close = ({ h with session := none }, 1))
  ∧ (h.session = none → h.close = (h, 0))
  ∧ h.close.1.close = (h.close.1, 0) := by
  obtain ⟨hn, nm, us, pw, tm, pt, kf, i6, i4, ex, ss⟩ := h
  cases ss <;> simp [Host.close]

/-- C6 witness: closing `hostB` (which holds a container session)
disconnects once and leaves no session. -/
theorem close_idempotent_demo :
    hostB.close = ({ hostB with session := none }, 1) :=
  (close_idempotent hostB).1 rfl

/-- C3 (amended): `from_dict` passes a `from_dict=True` marker, but
`__init__` never reads it — whether a record lacking both hostname and ip
is accepted depends solely on a `reconstruct_host` frame being on the
call stack. Under that frame the record is accepted (and the unused
marker ends up as an attribute); outside it the same record raises
`HostError`. -/
theorem from_dict_depends_on_stack (st : ProcState) (s : SSHSettings)
    (record : Dict)
    (hid : (pyOr (dictGet record "hostname") (dictGet record "ip")).truthy
      = false) :
    (Host.from_dict st s record false).2 = .error (.hostError hostErrMsg)
  ∧ exceptOk (Host.from_dict st s record true).2 = true
  ∧ (dictLookup record "from_dict" = none →
      ∀ h2, (Host.from_dict st s record true).2 = .ok h2 →
        dictLookup h2.ext "from_dict" = some (.pbool true)) := by
  have hho : dictGet (record ++ [("from_dict", PyVal.pbool true)]) "hostname"
      = dictGet record "hostname" :=
    dictGet_append_single record "hostname" "from_dict" (.pbool true) (by decide)
  have hip : dictGet (record ++ [("from_dict", PyVal.pbool true)]) "ip"
      = dictGet record "ip" :=
    dictGet_append_single record "ip" "from_dict" (.pbool true) (by decide)
  refine ⟨?_, ?_, ?_⟩
  · rw [Host.from_dict]
    apply init_snd_err
    rw [hho, hip]
    exact hid
  · rw [Host.from_dict, init_snd_flag]
    rfl
  · intro hnf h2 hh
    rw [Host.from_dict, init_snd_flag] at hh
    injection hh with hh
    subst hh
    rw [initHost_ext_lookup s _ "from_dict" (by decide),
      dictLookup_append_none hnf, dictLookup]
    simp

/-- C3 witness: a record with neither hostname nor ip raises outside the
checkin path and is accepted under it. -/
theorem from_dict_depends_on_stack_demo :
    (Host.from_dict procState0 demoSettings
        [("type", PyVal.pstr "host")] false).2
      = .error (.hostError hostErrMsg)
  ∧ exceptOk (Host.from_dict procState0 demoSettings
        [("type", PyVal.pstr "host")] true).2 = true :=
  ⟨(from_dict_depends_on_stack procState0 demoSettings
      [("type", PyVal.pstr "host")] (by decide)).1,
   (from_dict_depends_on_stack procState0 demoSettings
      [("type", PyVal.pstr "host")] (by decide)).2.1⟩

/-- C3 counterexample: `Host.from_dict` on a record lacking both hostname
and ip, called with no `reconstruct_host` frame on the stack, raises
`HostError` — the `from_dict=True` marker does not relax the identity
invariant, contradicting the claim that `from_dict` itself marks the
construction as a reconstruction. -/
theorem from_dict_outside_checkin_raises :
    (Host.from_dict procState0 demoSettings
        [("name", PyVal.pstr "orphan")] false).2
      = .error (.hostError hostErrMsg) := by
  decide

/-- C7 (amended): for a session-less host carrying a linked container
instance with no truthy port-22 mapping, the lazy accessor attaches a
container-backed session (never SSH). Otherwise it defers to `connect()`,
whose branch selects the container backend whenever `is_container` or
`_cont_inst` is truthy — so a container host whose SSH port 22 IS mapped
still gets the container backend — and the SSH backend only when the host
carries neither container marker. -/
theorem lazy_accessor_backend (h : Host) (hs : h.session = none) :
    (∀ ci : ContInst, dictLookup h.ext "_cont_inst" = some (.pcont ci) →
      ci.sshPortTruthy = false →
        h.sessionGet = ({ h with session := some (.container (ciRuntime ci)) },
          .ok (.container (ciRuntime ci)))
        ∧ h.lazyBackend = some .container)
  ∧ (∀ ci : ContInst, dictLookup h.ext "_cont_inst" = some (.pcont ci) →
      ci.sshPortTruthy = true →
        h.lazyBackend = some h.connectBackend ∧ h.connectBackend = .container)
  ∧ (dictLookup h.ext "_cont_inst" = none →
      (dictGet h.ext "is_container").truthy = false →
        h.lazyBackend = some .ssh) := by
  refine ⟨?_, ?_, ?_⟩
  · intro ci hci hport
    constructor
    · rw [Host.sessionGet, hs, hci]
      simp [hport]
    · rw [Host.lazyBackend, hci]
      simp [hport]
  · intro ci hci hport
    constructor
    · rw [Host.lazyBackend, hci]
      simp [hport]
    · simp [Host.connectBackend, dictGet, dictGetD, hci, PyVal.truthy]
  · intro hno hic
    have hc2 : (dictGet h.ext "_cont_inst").truthy = false := by
      rw [dictGet, dictGetD, hno]
      rfl
    rw [Host.lazyBackend, hno, Host.connectBackend]
    simp [hic, hc2]

/-- C7 witness: `hostD` (container instance, SSH port unmapped) gets a
podman container session attached by the accessor. -/
theorem lazy_accessor_backend_demo :
    hostD.sessionGet
      = ({ hostD with session := some (.container "podman") },
         .ok (.container "podman")) :=
  ((lazy_accessor_backend hostD rfl).1
    ⟨[(80, 8080)], "podman client object"⟩ rfl rfl).1

/-- C7 counterexample: `hostC` has a linked container instance whose SSH
port 22 IS mapped, so by the claim the accessor should take the SSH-backed
path; the code instead selects the container backend (inside `connect`). -/
theorem container_with_ssh_port_not_ssh :
    hostC.session = none
  ∧ dictLookup hostC.ext "_cont_inst"
      = some (.pcont ⟨[(22, 2222)], "docker client object"⟩)
  ∧ hostC.lazyBackend = some Backend.container
  ∧ hostC.lazyBackend ≠ some Backend.ssh := by
  decide

/-- C8: with a session attached, `execute(cmd)` passes the host's
`default_timeout` (class default 0) to the session's `run`, and
`execute(cmd, timeout=T)` passes `T` for that call only; both return the
run's result and leave the host — in particular its default timeout —
unchanged. -/
theorem execute_timeout_plumbing (runSem : Session → String → PyVal → RunResult)
    (h : Host) (s : Session) (c : String) (T : PyVal)
    (hs : h.session = some s) :
    Host.execute runSem h c none = (h, .ok (runSem s c h.defaultTimeoutVal))
  ∧ Host.execute runSem h c (some T) = (h, .ok (runSem s c T))
  ∧ (Host.execute runSem h c (some T)).1 = h := by
  simp [Host.execute, Host.sessionGet, hs]

/-- C8 witness: both timeout forms, on `hostB`. -/
theorem execute_timeout_plumbing_demo :
    Host.execute runSem0 hostB "echo ok" none
      = (hostB, .ok (runSem0 (.container "podman") "echo ok"
          hostB.defaultTimeoutVal)) :=
  (execute_timeout_plumbing runSem0 hostB (.container "podman") "echo ok"
    (.pint 5) rfl).1

/-- C9: across any sequence of constructions in one process, the SSH
settings validation runs exactly once: the first `__init__` runs it
(count goes from 0 to 1), and once `SETTINGS_VALIDATED` is set no later
construction touches the state again. -/
theorem validation_gate_once (s : SSHSettings) (kw0 : Dict) (flag0 : Bool)
    (reqs : List (Dict × Bool)) :
    (Host.init procState0 s kw0 flag0).1.validationCount = 1
  ∧ (∀ st : ProcState, st.settingsValidated = true →
      (Host.init st s kw0 flag0).1 = st)
  ∧ (constructMany s procState0 ((kw0, flag0) :: reqs)).validationCount = 1 := by
  refine ⟨?_, ?_, ?_⟩
  · rw [init_fst]
    rfl
  · intro st hv
    rw [init_fst, validateGate_validated hv]
  · rw [constructMany, init_fst]
    rw [show validateGate procState0 = ⟨true, 1⟩ from rfl]
    rw [constructMany_validated s ⟨true, 1⟩ reqs rfl]

/-- C9 witness: two constructions, one validation. -/
theorem validation_gate_once_demo :
    (constructMany demoSettings procState0
      [([("hostname", PyVal.pstr "a")], false),
       ([("hostname", PyVal.pstr "b")], false)]).validationCount = 1 :=
  (validation_gate_once demoSettings [("hostname", PyVal.pstr "a")] false
    [([("hostname", PyVal.pstr "b")], false)]).2.2

/-- C10: `to_dict` reads `self._prov_inst.instance` unconditionally, so a
host without the `_prov_inst` attribute raises `AttributeError` instead
of returning a record; and a host reconstructed by `from_dict` from a
record without `_prov_inst` keeps the provider-instance identifier only
under `_broker_provider_instance`, so it cannot be serialized again. -/
theorem to_dict_requires_prov_inst (h : Host) (st : ProcState)
    (s : SSHSettings) (record : Dict) (flag : Bool) :
    (dictLookup h.ext "_prov_inst" = none →
      h.to_dict = .error (.attrError "_prov_inst"))
  ∧ (dictLookup record "_prov_inst" = none →
      ∀ h2, (Host.from_dict st s record flag).2 = .ok h2 →
        h2.to_dict = .error (.attrError "_prov_inst")
        ∧ ∀ v, dictLookup record "_broker_provider_instance" = some v →
            dictLookup h2.ext "_broker_provider_instance" = some v) := by
  have hext : ∀ h2 : Host, dictLookup h2.ext "_prov_inst" = none →
      h2.to_dict = .error (.attrError "_prov_inst") := by
    intro h2 hn
    rw [Host.to_dict, hn]
  constructor
  · exact hext h
  · intro hnp h2 hh
    rw [Host.from_dict, init_snd] at hh
    split at hh
    · exact absurd hh (by simp)
    · injection hh with hh
      subst hh
      constructor
      · apply hext
        rw [initHost_ext_lookup s _ "_prov_inst" (by decide),
          dictLookup_append_none hnp]
        simp [dictLookup]
      · intro v hv
        rw [initHost_ext_lookup s _ "_broker_provider_instance" (by decide)]
        exact dictLookup_append_some hv _

/-- C10 witness: `hostA` (no provider link) cannot be serialized. -/
theorem to_dict_requires_prov_inst_demo :
    hostA.to_dict = .error (.attrError "_prov_inst") :=
  (to_dict_requires_prov_inst hostA procState0 demoSettings [] false).1 rfl

/-- C5 (amended): whenever `to_dict()` returns a record, every key of the
record lies in the documented allow-list; and provided the host's
`hostname` or `ip` attribute is truthy, `from_dict(to_dict(h))` outside
the reconstruction path succeeds and preserves `hostname` and `name`.
(Without that proviso the round trip can raise `HostError`: see the
counterexample.) -/
theorem to_dict_from_dict_roundtrip (h : Host) (d : Dict) (st : ProcState)
    (s : SSHSettings) (hd : h.to_dict = .ok d) :
    (∀ k v, (k, v) ∈ d → k ∈ allowList)
  ∧ ((pyOr h.hostname (dictGet h.ext "ip")).truthy = true →
      exceptOk (Host.from_dict st s d false).2 = true
      ∧ ∀ h2, (Host.from_dict st s d false).2 = .ok h2 →
          h2.hostname = h.hostname ∧ h2.name = h.name) := by
  rw [Host.to_dict] at hd
  rcases hp : dictLookup h.ext "_prov_inst" with _ | pv
  · rw [hp] at hd
    simp at hd
  · rw [hp] at hd
    cases pv with
    | pstr sv => simp at hd
    | pnone => simp at hd
    | pint n => simp at hd
    | pbool b => simp at hd
    | pcont ci => simp at hd
    | pprov inst =>
      simp only [Except.ok.injEq] at hd
      subst hd
      rw [dictFilterKeys_instanceDict]
      set D : Dict :=
        ("name", h.name) :: ("_broker_provider_instance", PyVal.pstr inst) ::
        ("type", PyVal.pstr "host") :: ("hostname", h.hostname) ::
        dictFilterKeys keepKeys h.ext with hDdef
      have f1 : dictLookup (D ++ [("from_dict", PyVal.pbool true)]) "hostname"
          = some h.hostname := by
        apply dictLookup_append_some
        rw [hDdef]
        simp [dictLookup]
      have f3 : dictGet (D ++ [("from_dict", PyVal.pbool true)]) "name"
          = h.name := by
        have hn : dictLookup D "name" = some h.name := by
          rw [hDdef]
          simp [dictLookup]
        rw [dictGet, dictGetD, dictLookup_append_some hn]
        rfl
      have f2 : dictGet (D ++ [("from_dict", PyVal.pbool true)]) "ip"
          = dictGet h.ext "ip" := by
        cases hip : dictLookup h.ext "ip" with
        | some w =>
          have hD : dictLookup D "ip" = some w := by
            rw [hDdef]
            simp [dictLookup, dictLookup_filterKeys, keepKeys, hip]
          rw [dictGet, dictGetD, dictLookup_append_some hD,
            dictGet, dictGetD, hip]
        | none =>
          have hD : dictLookup D "ip" = none := by
            rw [hDdef]
            simp [dictLookup, dictLookup_filterKeys, keepKeys, hip]
          rw [dictGet, dictGetD, dictLookup_append_none hD,
            dictGet, dictGetD, hip]
          simp [dictLookup]
      refine ⟨?_, ?_⟩
      · intro k v hm
        rw [hDdef] at hm
        simp only [List.mem_cons] at hm
        rcases hm with h1 | h1 | h1 | h1 | h1
        · simp at h1
          rw [h1.1]
          decide
        · simp at h1
          rw [h1.1]
          decide
        · simp at h1
          rw [h1.1]
          decide
        · simp at h1
          rw [h1.1]
          decide
        · simp only [allowList]
          exact List.mem_cons_of_mem _ (List.mem_cons_of_mem _
            (List.mem_cons_of_mem _ (mem_dictFilterKeys h1)))
      · intro htr
        have g1 : dictGet (D ++ [("from_dict", PyVal.pbool true)]) "hostname"
            = h.hostname := by
          rw [dictGet, dictGetD, f1]
          rfl
        have htr' : (pyOr
            (dictGet (D ++ [("from_dict", PyVal.pbool true)]) "hostname")
            (dictGet (D ++ [("from_dict", PyVal.pbool true)]) "ip")).truthy
              = true := by
          rw [g1, f2]
          exact htr
        have hok : (Host.from_dict st s D false).2
            = .ok (Host.initHost s (D ++ [("from_dict", PyVal.pbool true)])) := by
          rw [Host.from_dict]
          exact init_snd_ok _ _ _ _ htr'
        refine ⟨?_, ?_⟩
        · rw [hok]
          rfl
        · intro h2 hh
          rw [hok] at hh
          injection hh with hh
          subst hh
          constructor
          · rw [initHost_hostname, f1]
          · rw [initHost_name, f3]

/-- C5 witness: `hostP` (provider link, truthy hostname, an `ip`
attribute) serializes to `dP` and deserializes outside the checkin path
into a host with the same hostname and name. -/
theorem to_dict_from_dict_roundtrip_demo :
    hostP.to_dict = .ok dP
  ∧ (pyOr hostP.hostname (dictGet hostP.ext "ip")).truthy = true
  ∧ exceptOk (Host.from_dict procState0 demoSettings dP false).2 = true :=
  ⟨by decide, by decide,
   ((to_dict_from_dict_roundtrip hostP dP procState0 demoSettings
      (by decide)).2 (by decide)).1⟩

/-- C5 counterexample: `hostN` — a provider-linked host the checkin
reconstruction path built with neither hostname nor ip — serializes
fine, but `from_dict(to_dict(hostN))` outside that path raises
`HostError` instead of yielding a Host with equal hostname and name, so
the round trip does not hold for every Host. -/
theorem roundtrip_identityless_raises :
    exceptOk hostN.to_dict = true
  ∧ hostN.hostname = PyVal.pnone
  ∧ (Host.from_dict procState0 demoSettings dN false).2
      = .error (.hostError hostErrMsg) := by
  decide

end Broker
